import Mathlib

/-!
Verification of the sally-tsm-agent backend core.

Shallow embedding of the two non-trivial pieces of the repository:
the query-safety / NL-to-SQL response pipeline of
`sally-backend/ai/gemini_agent.py` and the multi-backend database
manager of `sally-backend/database/manager.py`.

Strings are modelled as `List Char`.  Python's `str.lower()` is modelled
ASCII-wise (`lowerChar`), `str.strip()` strips the ASCII whitespace
characters that `str.isspace` recognises, and the three regular
expressions of `is_safe_query` (compiled without `re.DOTALL`) are
modelled by explicit scanners with the same matching semantics.
-/

/-- The upper-case/lower-case pairs of the ASCII alphabet. -/
def upperLowerPairs : List (Char × Char) :=
  [('A', 'a'), ('B', 'b'), ('C', 'c'), ('D', 'd'), ('E', 'e'), ('F', 'f'),
   ('G', 'g'), ('H', 'h'), ('I', 'i'), ('J', 'j'), ('K', 'k'), ('L', 'l'),
   ('M', 'm'), ('N', 'n'), ('O', 'o'), ('P', 'p'), ('Q', 'q'), ('R', 'r'),
   ('S', 's'), ('T', 't'), ('U', 'u'), ('V', 'v'), ('W', 'w'), ('X', 'x'),
   ('Y', 'y'), ('Z', 'z')]

/-- ASCII lower-casing of one character, the behaviour of Python's
`str.lower` on the ASCII range. -/
def lowerChar (c : Char) : Char :=
  (upperLowerPairs.lookup c).getD c

/-- The ASCII whitespace characters stripped by Python's `str.strip()`
(space, tab, newline, carriage return, vertical tab, form feed). -/
def isPySpace (c : Char) : Bool :=
  c = ' ' || c = '\t' || c = '\n' || c = '\r' || c = Char.ofNat 11 || c = Char.ofNat 12

/-- Python `str.strip()`: remove leading and trailing whitespace. -/
def pyStrip (s : List Char) : List Char :=
  (s.dropWhile isPySpace).rdropWhile isPySpace

/-- Python's substring test `pat in s` (`str.__contains__`). -/
def containsSub (pat : List Char) : List Char → Bool
  | [] => pat.isEmpty
  | c :: rest => pat.isPrefixOf (c :: rest) || containsSub pat rest

/-- The local variable `sql_lower = sql.lower().strip()` of
`GeminiAgent.is_safe_query`. -/
def sqlLowerOf (sql : List Char) : List Char :=
  pyStrip (sql.map lowerChar)

/-- The `dangerous_keywords` denylist of `GeminiAgent.is_safe_query`. -/
def dangerous_keywords : List (List Char) :=
  ["drop".toList, "delete".toList, "truncate".toList, "alter".toList,
   "create".toList, "insert".toList, "update".toList, "grant".toList,
   "revoke".toList, "exec".toList, "execute".toList, "xp_".toList,
   "sp_".toList, "shutdown".toList, "backup".toList, "restore".toList,
   "use ".toList, "into outfile".toList, "into dumpfile".toList,
   "load_file".toList, "system".toList, "shell".toList]

/-- Matcher for the tail `\s*drop` of the injection patterns: greedy
whitespace, then the literal `drop` (since `d` is not whitespace, the
greedy scan is exact). -/
def spacesThenDrop (s : List Char) : Bool :=
  "drop".toList.isPrefixOf (s.dropWhile isPySpace)

/-- `re.search` of the pattern `;\s*drop` (no DOTALL): some occurrence of
`;` followed by whitespace and the literal `drop`. -/
def semiDropMatch : List Char → Bool
  | [] => false
  | c :: rest => (c = ';' && spacesThenDrop rest) || semiDropMatch rest

/-- `re.search` of the pattern `--\s*drop`: some occurrence of `--`
followed by whitespace and the literal `drop`. -/
def dashDropMatch : List Char → Bool
  | [] => false
  | c :: rest =>
    (c = '-' && rest.head? = some '-' && spacesThenDrop rest.tail) || dashDropMatch rest

/-- Matcher for `.*\*/` without DOTALL: a literal `*/` occurs before any
newline in the remaining text (`.` does not match `\n`). -/
def starSlashBeforeNl : List Char → Bool
  | [] => false
  | c :: rest =>
    (c = '*' && rest.head? = some '/') || (c ≠ '\n' && starSlashBeforeNl rest)

/-- `re.search` of the pattern `/\*.*\*/` compiled without `re.DOTALL`:
a literal `/*` followed by a literal `*/` with no newline in between. -/
def blockCommentMatch : List Char → Bool
  | [] => false
  | c :: rest =>
    (c = '/' && rest.head? = some '*' && starSlashBeforeNl rest.tail) || blockCommentMatch rest

/-- `GeminiAgent.is_safe_query` of `sally-backend/ai/gemini_agent.py`:
empty text is unsafe; the lower-cased stripped text must start with
`select`; it must contain no denylisted keyword and match none of the
three suspicious regular-expression patterns. -/
def is_safe_query (sql : List Char) : Bool :=
  if sql.isEmpty then false
  else if !("select".toList.isPrefixOf (sqlLowerOf sql)) then false
  else if dangerous_keywords.any (fun k => containsSub k (sqlLowerOf sql)) then false
  else if semiDropMatch (sqlLowerOf sql) || dashDropMatch (sqlLowerOf sql)
          || blockCommentMatch (sqlLowerOf sql) then false
  else true

/-- Spec-side notion for C3: a literal `*/` occurs somewhere in the text
(newlines allowed before it). -/
def starSlashAnywhere : List Char → Bool
  | [] => false
  | c :: rest => (c = '*' && rest.head? = some '/') || starSlashAnywhere rest

/-- Spec-side notion for C3, following the claim's words: the text has an
occurrence of `/*` followed later by `*/`, with arbitrary content (in
particular newlines) in between. -/
def blockSpanAnywhere : List Char → Bool
  | [] => false
  | c :: rest =>
    (c = '/' && rest.head? = some '*' && starSlashAnywhere rest.tail) || blockSpanAnywhere rest

/-! Model of `GeminiAgent._parse_gemini_response`.  The two regular
expressions `SQL:\s*(.+?)(?=EXPLANATION:|$)` and `EXPLANATION:\s*(.+)`
(both `re.DOTALL | re.IGNORECASE`) and the fallback
` ```sql\s*(.+?)\s*``` ` are modelled by explicit scanners with
leftmost-match, greedy-`\s*`, lazy-`.+?` semantics. -/

/-- The zero-width lookahead `(?=EXPLANATION:|$)`: the remaining text
starts with a case-insensitive `EXPLANATION:` label, or is at the end of
the string, or just before a trailing newline (`$` without MULTILINE). -/
def sqlLookahead (rest : List Char) : Bool :=
  "explanation:".toList.isPrefixOf (rest.map lowerChar) || rest.isEmpty || rest = ['\n']

/-- Lazy `(.+?)` up to the lookahead: the shortest non-empty prefix after
which `sqlLookahead` holds. -/
def groupScan : List Char → List Char
  | [] => []
  | c :: rest => if sqlLookahead rest then [c] else c :: groupScan rest

/-- Match of `\s*(.+?)(?=EXPLANATION:|$)` against the text following an
`SQL:` label: `none` when the remainder is empty (the group needs at
least one character); if everything after the label is whitespace the
backtracking `\s*` gives back the last character; otherwise the greedy
`\s*` eats the whitespace and the lazy group grows to the lookahead. -/
def sqlGroup (r : List Char) : Option (List Char) :=
  if r.isEmpty then none
  else
    if (r.dropWhile isPySpace).isEmpty then some [r.getLastD ' ']
    else some (groupScan (r.dropWhile isPySpace))

/-- `re.search` of `SQL:\s*(.+?)(?=EXPLANATION:|$)` (DOTALL, IGNORECASE):
leftmost case-insensitive `SQL:` occurrence whose tail admits a match;
the returned value is the content of the capture group. -/
def searchSqlLabel : List Char → Option (List Char)
  | [] => none
  | c :: rest =>
    if "sql:".toList.isPrefixOf ((c :: rest).map lowerChar) then
      match sqlGroup ((c :: rest).drop 4) with
      | some g => some g
      | none => searchSqlLabel rest
    else searchSqlLabel rest

/-- Match of `\s*(.+)` (DOTALL) after an `EXPLANATION:` label: fails on an
empty remainder, backtracks to the last character if all whitespace,
otherwise the greedy group takes everything after the whitespace. -/
def expGroup (r : List Char) : Option (List Char) :=
  if r.isEmpty then none
  else
    if (r.dropWhile isPySpace).isEmpty then some [r.getLastD ' ']
    else some (r.dropWhile isPySpace)

/-- `re.search` of `EXPLANATION:\s*(.+)` (DOTALL, IGNORECASE). -/
def searchExpLabel : List Char → Option (List Char)
  | [] => none
  | c :: rest =>
    if "explanation:".toList.isPrefixOf ((c :: rest).map lowerChar) then
      match expGroup ((c :: rest).drop 12) with
      | some g => some g
      | none => searchExpLabel rest
    else searchExpLabel rest

/-- Lazy `(.+?)\s*```'`-tail of the code-block pattern: shortest non-empty
prefix followed (after greedy whitespace) by a closing fence. -/
def fenceScan : List Char → Option (List Char)
  | [] => none
  | c :: rest =>
    if "```".toList.isPrefixOf (rest.dropWhile isPySpace) then some [c]
    else
      match fenceScan rest with
      | some g => some (c :: g)
      | none => none

/-- Backtracking of the first `\s*` of the code-block pattern: try the
maximal whitespace consumption first, then shorter ones. -/
def fenceTryK (r : List Char) : Nat → Option (List Char)
  | 0 => fenceScan r
  | k + 1 =>
    match fenceScan (r.drop (k + 1)) with
    | some g => some g
    | none => fenceTryK r k

/-- Match of `\s*(.+?)\s*```'` against the text following a ` ```sql `
opening fence. -/
def fenceAfterLabel (r : List Char) : Option (List Char) :=
  fenceTryK r (r.takeWhile isPySpace).length

/-- `re.search` of ` ```sql\s*(.+?)\s*``` ` (DOTALL, IGNORECASE). -/
def searchFence : List Char → Option (List Char)
  | [] => none
  | c :: rest =>
    if "```sql".toList.isPrefixOf ((c :: rest).map lowerChar) then
      match fenceAfterLabel ((c :: rest).drop 6) with
      | some g => some g
      | none => searchFence rest
    else searchFence rest

/-- Fuel-driven body of Python `str.replace`: replace all non-overlapping
occurrences of `pat`, scanning left to right.  Faithful whenever the fuel
is at least the length of the list and `pat` is non-empty. -/
def replaceFuel (pat repl : List Char) : Nat → List Char → List Char
  | _, [] => []
  | 0, l => l
  | fuel + 1, c :: rest =>
    if pat.isPrefixOf (c :: rest) && !pat.isEmpty then
      repl ++ replaceFuel pat repl fuel ((c :: rest).drop pat.length)
    else
      c :: replaceFuel pat repl fuel rest

/-- Python `s.replace(pat, repl)` for a non-empty `pat`. -/
def pyReplace (s pat repl : List Char) : List Char :=
  replaceFuel pat repl s.length s

/-- Python `sql[sql.lower().index('select'):]`: drop everything before the
first case-insensitive occurrence of `select`. -/
def dropBeforeSelect : List Char → List Char
  | [] => []
  | c :: rest =>
    if "select".toList.isPrefixOf ((c :: rest).map lowerChar) then c :: rest
    else dropBeforeSelect rest

/-- The fixed placeholder explanation of `_parse_gemini_response`. -/
def defaultExplanation : List Char := "Query generated by Gemini AI".toList

/-- `GeminiAgent._parse_gemini_response`: extract the SQL text (labelled
section, else code fence, else the whole text), extract the explanation
(labelled section, else placeholder), remove residual code-fence markers,
strip, and truncate everything before the first `select`. -/
def parse_gemini_response (text : List Char) : List Char × List Char :=
  let sqlRaw :=
    match searchSqlLabel text with
    | some g => pyStrip g
    | none =>
      match searchFence text with
      | some g => pyStrip g
      | none => pyStrip text
  let explanation :=
    match searchExpLabel text with
    | some g => pyStrip g
    | none => defaultExplanation
  let sql1 := pyStrip (pyReplace (pyReplace sqlRaw "```sql".toList []) "```".toList [])
  let sql2 :=
    if containsSub "select".toList (sql1.map lowerChar) then dropBeforeSelect sql1
    else sql1
  (sql2, explanation)

/-! Model of `DatabaseManager` (`sally-backend/database/manager.py`).
Connection handles are identified by natural numbers; the driver calls
(`asyncpg.create_pool`, executes, introspection queries) are external
collaborators, so each operation takes the outcome of the underlying
driver call as an explicit argument.  The `closed` field is the test
double of the spec: it records the handles whose driver-level close was
invoked. -/

/-- A Python value stored in a result row, as classified by
`suggest_visualization`: numbers (`isinstance(v, (int, float))`) versus
everything else. -/
inductive PyVal where
  | num (n : Int)
  | other (s : List Char)
  deriving DecidableEq

/-- A result row: ordered mapping from column name to value. -/
abbrev Row := List (List Char × PyVal)

/-- The database configuration dictionary.  Only the `type` key is read by
`DatabaseManager` itself; the remaining keys (host, port, credentials)
are consumed by the external drivers and modelled opaquely. -/
structure PyConfig where
  ctype : List Char
  rest : Nat
  deriving DecidableEq

/-- The mutable state of a `DatabaseManager` instance, extended with the
ghost `closed` trace of driver-close invocations. -/
structure DBState where
  connection : Option Nat
  db_type : Option (List Char)
  config : Option PyConfig
  closed : List Nat
  deriving DecidableEq

/-- `DatabaseManager.__init__`: no connection, no type, no config. -/
def initState : DBState := ⟨none, none, none, []⟩

/-- Outcome of the external driver's connection attempt. -/
inductive DriverOutcome where
  | ok (handle : Nat)
  | fail (msg : List Char)
  deriving DecidableEq

/-- `DatabaseManager.connect`: store `config` and `config['type']` first;
dispatch on the type; a successful driver call installs the new handle;
a driver failure, the Oracle `NotImplementedError` or an unsupported type
is caught and sets `connection = None`, returning `False`.  No close is
ever invoked on a previously held handle. -/
def DatabaseManager.connect (st : DBState) (cfg : PyConfig) (drv : DriverOutcome) :
    DBState × Bool :=
  let st1 : DBState := { st with config := some cfg, db_type := some cfg.ctype }
  if cfg.ctype = "postgresql".toList then
    match drv with
    | .ok h => ({ st1 with connection := some h }, true)
    | .fail _ => ({ st1 with connection := none }, false)
  else if cfg.ctype = "mysql".toList then
    match drv with
    | .ok h => ({ st1 with connection := some h }, true)
    | .fail _ => ({ st1 with connection := none }, false)
  else if cfg.ctype = "sqlite".toList then
    match drv with
    | .ok h => ({ st1 with connection := some h }, true)
    | .fail _ => ({ st1 with connection := none }, false)
  else
    ({ st1 with connection := none }, false)

/-- `DatabaseManager.close`: when a handle is held, invoke its driver
close (recorded in the ghost trace; driver errors are swallowed) and
clear `connection` and `db_type`. -/
def DatabaseManager.close (st : DBState) : DBState :=
  match st.connection with
  | none => st
  | some h => { st with connection := none, db_type := none, closed := st.closed ++ [h] }

/-- Render of `self.db_type` in the f-string of the unsupported-type
error message (`str(None) = "None"`). -/
def showOptStr : Option (List Char) → List Char
  | some s => s
  | none => "None".toList

/-- `DatabaseManager.execute_query`: raise `Database not connected` when
no handle is held; otherwise delegate to the driver; any exception inside
the `try` (driver failure or unsupported type) is re-raised as
`Query execution failed: {original message}`. -/
def DatabaseManager.execute_query (st : DBState) (drv : Except (List Char) (List Row)) :
    Except (List Char) (List Row) :=
  if st.connection.isNone then .error "Database not connected".toList
  else if st.db_type = some "postgresql".toList ∨ st.db_type = some "mysql".toList
      ∨ st.db_type = some "sqlite".toList then
    match drv with
    | .ok rows => .ok rows
    | .error m => .error ("Query execution failed: ".toList ++ m)
  else
    .error ("Query execution failed: Execute not implemented for ".toList
      ++ showOptStr st.db_type)

/-- One raw introspection row `(table_name, column_name, data_type)`. -/
structure SchemaRow where
  table_name : List Char
  column_name : List Char
  data_type : List Char
  deriving DecidableEq

/-- One column of the canonical schema (`{"name": ..., "type": ...}`). -/
structure SchemaColumn where
  name : List Char
  type : List Char
  deriving DecidableEq

/-- One table of the canonical schema. -/
structure SchemaTable where
  name : List Char
  columns : List SchemaColumn
  deriving DecidableEq

/-- The canonical schema dictionary `{"tables": [...]}`. -/
structure Schema where
  tables : List SchemaTable
  deriving DecidableEq

/-- One step of `DatabaseManager._build_schema_from_rows`: append the
column to the existing table entry (dict insertion order preserved) or
create a new entry at the end. -/
def addSchemaRow (ts : List SchemaTable) (tn cn dt : List Char) : List SchemaTable :=
  match ts with
  | [] => [⟨tn, [⟨cn, dt⟩]⟩]
  | t :: rest =>
    if t.name = tn then ⟨t.name, t.columns ++ [⟨cn, dt⟩]⟩ :: rest
    else t :: addSchemaRow rest tn cn dt

/-- `DatabaseManager._build_schema_from_rows`. -/
def build_schema_from_rows (rows : List SchemaRow) : Schema :=
  ⟨rows.foldl (fun ts r => addSchemaRow ts r.table_name r.column_name r.data_type) []⟩

/-- Outcomes of the driver-level introspection calls (the
`information_schema` query for PostgreSQL or MySQL, the
`sqlite_master`/`PRAGMA` walk for SQLite). -/
structure IntroOutcome where
  pgRows : Except (List Char) (List SchemaRow)
  myRows : Except (List Char) (List SchemaRow)
  sqliteTables : Except (List Char) (List (List Char × List SchemaColumn))

/-- `DatabaseManager.get_schema`: return `{"tables": []}` when not
connected; otherwise dispatch on the type; every exception is caught and
also yields `{"tables": []}`.  The function never raises, hence the
result is always `Except.ok`. -/
def DatabaseManager.get_schema (st : DBState) (o : IntroOutcome) : Except (List Char) Schema :=
  if st.connection.isNone then .ok ⟨[]⟩
  else if st.db_type = some "postgresql".toList then
    match o.pgRows with
    | .ok rs => .ok (build_schema_from_rows rs)
    | .error _ => .ok ⟨[]⟩
  else if st.db_type = some "mysql".toList then
    match o.myRows with
    | .ok rs => .ok (build_schema_from_rows rs)
    | .error _ => .ok ⟨[]⟩
  else if st.db_type = some "sqlite".toList then
    match o.sqliteTables with
    | .ok ts => .ok ⟨ts.map (fun p => ⟨p.1, p.2⟩)⟩
    | .error _ => .ok ⟨[]⟩
  else .ok ⟨[]⟩

/-- A chart suggestion as built by `GeminiAgent.suggest_visualization`. -/
structure VizSuggestion where
  vtype : List Char
  x_axis : List Char
  y_axis : List Char
  title : List Char
  description : List Char
  deriving DecidableEq

/-- `isinstance(sample_value, (int, float))` of the heuristic. -/
def PyVal.isNumeric : PyVal → Bool
  | .num _ => true
  | .other _ => false

/-- `data[0][col]`: dictionary access on the first row (the key is always
present since it comes from `data[0].keys()`). -/
def rowLookup (r : Row) (k : List Char) : PyVal :=
  (r.lookup k).getD (PyVal.other [])

/-- `GeminiAgent.suggest_visualization`: `None` for a missing or empty
row set; with fewer than two columns `None`; one categorical and one
numerical column give a bar chart; two numerical columns give a line
chart; otherwise `None`. -/
def suggest_visualization (data : Option (List Row)) : Option VizSuggestion :=
  match data with
  | none => none
  | some [] => none
  | some (r0 :: _) =>
    let columns := r0.map Prod.fst
    if columns.length < 2 then none
    else
      let numerical_cols := columns.filter (fun c => (rowLookup r0 c).isNumeric)
      let categorical_cols := columns.filter (fun c => !(rowLookup r0 c).isNumeric)
      match categorical_cols, numerical_cols with
      | c0 :: _, n0 :: _ =>
        some ⟨"bar".toList, c0, n0, n0 ++ " by ".toList ++ c0,
          "Bar chart showing distribution".toList⟩
      | _, _ =>
        match numerical_cols with
        | n0 :: n1 :: _ =>
          some ⟨"line".toList, n0, n1, n1 ++ " vs ".toList ++ n0,
            "Trend visualization".toList⟩
        | _ => none

-- Basic facts about `lowerChar`.

/-- A `lookup`-with-default either returns the key unchanged or the value
of a pair of the table whose key is the looked-up character. -/
theorem lookup_getD_spec (c : Char) (ps : List (Char × Char)) :
    ((ps.lookup c).getD c = c) ∨
      ∃ p ∈ ps, p.1 = c ∧ (ps.lookup c).getD c = p.2 := by
  induction ps with
  | nil => exact Or.inl rfl
  | cons p rest ih =>
    obtain ⟨k, v⟩ := p
    by_cases h : c = k
    · subst h
      exact Or.inr ⟨(c, v), by simp, rfl, by simp [List.lookup]⟩
    · have hbeq : (c == k) = false := by simp [h]
      have hl : ((k, v) :: rest).lookup c = rest.lookup c := by
        simp [List.lookup, hbeq]
      rw [hl]
      rcases ih with h1 | ⟨q, hq, hq1, hq2⟩
      · exact Or.inl h1
      · exact Or.inr ⟨q, List.mem_cons_of_mem _ hq, hq1, hq2⟩

/-- Every character is either fixed by `lowerChar` or is an upper-case
ASCII letter mapped into the lower-case ASCII range. -/
theorem lowerChar_spec (c : Char) :
    lowerChar c = c ∨ ('A' ≤ c ∧ c ≤ 'Z' ∧ 'a' ≤ lowerChar c ∧ lowerChar c ≤ 'z') := by
  have htab : ∀ q ∈ upperLowerPairs, 'A' ≤ q.1 ∧ q.1 ≤ 'Z' ∧ 'a' ≤ q.2 ∧ q.2 ≤ 'z' := by
    decide
  rcases lookup_getD_spec c upperLowerPairs with h | ⟨p, hp, h1, h2⟩
  · exact Or.inl h
  · obtain ⟨hA, hZ, ha, hz⟩ := htab p hp
    refine Or.inr ⟨h1 ▸ hA, h1 ▸ hZ, ?_, ?_⟩
    · show 'a' ≤ lowerChar c
      unfold lowerChar
      rw [h2]; exact ha
    · show lowerChar c ≤ 'z'
      unfold lowerChar
      rw [h2]; exact hz

/-- `lowerChar` neither produces nor destroys a character that is not an
ASCII letter: for such `d`, `lowerChar c = d` exactly when `c = d`. -/
theorem lowerChar_eq_iff {d : Char} (hd1 : ¬('a' ≤ d ∧ d ≤ 'z'))
    (hd2 : ¬('A' ≤ d ∧ d ≤ 'Z')) (c : Char) : lowerChar c = d ↔ c = d := by
  rcases lowerChar_spec c with h | ⟨hA, hZ, ha, hz⟩
  · rw [h]
  · constructor
    · intro he; exact absurd ⟨he ▸ ha, he ▸ hz⟩ hd1
    · intro he; exact absurd ⟨he ▸ hA, he ▸ hZ⟩ hd2

/-- Claim C1: for every SQL text that, ignoring leading and trailing
whitespace, does not start with the case-insensitive keyword `select`
(including the empty string), `is_safe_query` returns unsafe. -/
theorem claim_C1 (sql : List Char)
    (h : "select".toList.isPrefixOf (sqlLowerOf sql) = false) :
    is_safe_query sql = false := by
  unfold is_safe_query
  simp only [h]
  by_cases he : sql.isEmpty <;> simp [he]

/-- Witness for C1 at the concrete input `"DELETE FROM t"`. -/
theorem claim_C1_witness :
    "select".toList.isPrefixOf (sqlLowerOf "DELETE FROM t".toList) = false ∧
      is_safe_query "DELETE FROM t".toList = false :=
  ⟨by decide, claim_C1 _ (by decide)⟩

/-- Counterexample for C2: the lower-casing of `"select * from use "`
(note the trailing space) contains the denylist token `"use "`, yet
`is_safe_query` accepts it, because the validator checks the denylist
against the *stripped* lower-casing, whose trailing space is gone. -/
theorem claim_C2_counterexample :
    "use ".toList ∈ dangerous_keywords ∧
      containsSub "use ".toList ("select * from use ".toList.map lowerChar) = true ∧
      is_safe_query "select * from use ".toList = true := by
  refine ⟨by decide, by decide, by decide⟩

/-- Claim C2 as amended: for every SQL text whose lower-cased,
whitespace-trimmed text contains a denylist token as a substring,
`is_safe_query` returns unsafe (in particular `select 1; drop table x`
is unsafe). -/
theorem claim_C2 (sql : List Char)
    (h : ∃ k ∈ dangerous_keywords, containsSub k (sqlLowerOf sql) = true) :
    is_safe_query sql = false := by
  have hany : dangerous_keywords.any (fun k => containsSub k (sqlLowerOf sql)) = true :=
    List.any_eq_true.mpr h
  by_cases he : sql.isEmpty
  · simp [is_safe_query, he]
  · by_cases hp : "select".toList.isPrefixOf (sqlLowerOf sql) = true
    · simp [is_safe_query, he, hp, hany]
    · have hp' : ¬("select".toList <+: sqlLowerOf sql) := by simpa using hp
      have hp'' : ¬(['s', 'e', 'l', 'e', 'c', 't'] <+: sqlLowerOf sql) := hp'
      simp [is_safe_query, he, hp'']

/-- Witness for C2 at the claim's own example `"select 1; drop table x"`. -/
theorem claim_C2_witness :
    ("drop".toList ∈ dangerous_keywords ∧
      containsSub "drop".toList (sqlLowerOf "select 1; drop table x".toList) = true) ∧
      is_safe_query "select 1; drop table x".toList = false :=
  ⟨⟨by decide, by decide⟩, claim_C2 _ ⟨"drop".toList, by decide, by decide⟩⟩

/-- `lowerChar` does not create a newline out of another character. -/
theorem lowerChar_ne_newline {c : Char} (hc : c ≠ '\n') : lowerChar c ≠ '\n' :=
  fun h => hc ((lowerChar_eq_iff (by decide) (by decide) c).mp h)

/-- Dropping a prefix while `p` holds passes over an embedded element on
which `p` fails: the tail from that element survives. -/
theorem dropWhile_append_cons (p : Char → Bool) (A : List Char) (c : Char)
    (xs : List Char) (hc : p c = false) :
    ∃ A', List.dropWhile p (A ++ c :: xs) = A' ++ c :: xs := by
  induction A with
  | nil => exact ⟨[], by simp [List.dropWhile_cons, hc]⟩
  | cons d A ih =>
    by_cases hd : p d
    · obtain ⟨A', hA'⟩ := ih
      exact ⟨A', by simp [List.dropWhile_cons, hd, hA']⟩
    · exact ⟨d :: A, by simp [List.dropWhile_cons, hd]⟩

/-- Mirror image of `dropWhile_append_cons` for the right-hand strip. -/
theorem rdropWhile_append_cons (p : Char → Bool) (U : List Char) (c : Char)
    (B : List Char) (hc : p c = false) :
    ∃ B', List.rdropWhile p (U ++ c :: B) = U ++ c :: B' := by
  obtain ⟨B₂, hB₂⟩ := dropWhile_append_cons p B.reverse c U.reverse hc
  refine ⟨B₂.reverse, ?_⟩
  have hrev : (U ++ c :: B).reverse = B.reverse ++ c :: U.reverse := by
    simp
  rw [List.rdropWhile, hrev, hB₂]
  simp

/-- A `*/` preceded only by non-newline characters is found by the
DOTALL-free scanner. -/
theorem starSlashBeforeNl_complete (m b : List Char) (hm : ∀ c ∈ m, c ≠ '\n') :
    starSlashBeforeNl (m ++ '*' :: '/' :: b) = true := by
  induction m with
  | nil => simp [starSlashBeforeNl]
  | cons c m' ih =>
    have hc : c ≠ '\n' := hm c (List.mem_cons_self c m')
    have ih' := ih fun x hx => hm x (List.mem_cons_of_mem _ hx)
    simp [starSlashBeforeNl, ih', hc]

/-- A block comment whose interior has no newline is found by the
DOTALL-free pattern `/\*.*\*/`. -/
theorem blockCommentMatch_complete (a m b : List Char) (hm : ∀ c ∈ m, c ≠ '\n') :
    blockCommentMatch (a ++ '/' :: '*' :: (m ++ '*' :: '/' :: b)) = true := by
  induction a with
  | nil =>
    have hs := starSlashBeforeNl_complete m b hm
    simp [blockCommentMatch, hs]
  | cons d a' ih =>
    simp only [List.cons_append]
    simp [blockCommentMatch, ih]

/-- Counterexample for C3: `"select 1 /*a\nb*/"` contains a block-comment
span (`/*` followed later by `*/`), but its interior contains a newline,
the pattern `/\*.*\*/` is compiled without `re.DOTALL`, and so
`is_safe_query` accepts the text. -/
theorem claim_C3_counterexample :
    blockSpanAnywhere "select 1 /*a\nb*/".toList = true ∧
      is_safe_query "select 1 /*a\nb*/".toList = true := by
  exact ⟨by decide, by decide⟩

/-- Claim C3 as amended: for every SQL text containing a block-comment
span `/* ... */` whose interior contains no newline character,
`is_safe_query` returns unsafe, regardless of the comment's content. -/
theorem claim_C3 (sql a m b : List Char)
    (hsql : sql = a ++ '/' :: '*' :: (m ++ '*' :: '/' :: b))
    (hm : ∀ c ∈ m, c ≠ '\n') :
    is_safe_query sql = false := by
  subst hsql
  have hbc : blockCommentMatch (sqlLowerOf (a ++ '/' :: '*' :: (m ++ '*' :: '/' :: b)))
      = true := by
    have h1 : lowerChar '/' = '/' := by decide
    have h2 : lowerChar '*' = '*' := by decide
    have hmap : (a ++ '/' :: '*' :: (m ++ '*' :: '/' :: b)).map lowerChar
        = a.map lowerChar
          ++ '/' :: '*' :: (m.map lowerChar ++ '*' :: '/' :: b.map lowerChar) := by
      simp [h1, h2]
    have hM : ∀ c ∈ m.map lowerChar, c ≠ '\n' := by
      intro c hc
      obtain ⟨x, hx, rfl⟩ := List.mem_map.mp hc
      exact lowerChar_ne_newline (hm x hx)
    obtain ⟨A', hA'⟩ := dropWhile_append_cons isPySpace (a.map lowerChar) '/'
      ('*' :: (m.map lowerChar ++ '*' :: '/' :: b.map lowerChar)) (by decide)
    have hsplit : A' ++ '/' :: '*' :: (m.map lowerChar ++ '*' :: '/' :: b.map lowerChar)
        = (A' ++ '/' :: '*' :: (m.map lowerChar ++ ['*'])) ++ '/' :: b.map lowerChar := by
      simp
    obtain ⟨B', hB'⟩ := rdropWhile_append_cons isPySpace
      (A' ++ '/' :: '*' :: (m.map lowerChar ++ ['*'])) '/' (b.map lowerChar) (by decide)
    have hfin : (A' ++ '/' :: '*' :: (m.map lowerChar ++ ['*'])) ++ '/' :: B'
        = A' ++ '/' :: '*' :: (m.map lowerChar ++ '*' :: '/' :: B') := by
      simp
    have hstrip : sqlLowerOf (a ++ '/' :: '*' :: (m ++ '*' :: '/' :: b))
        = A' ++ '/' :: '*' :: (m.map lowerChar ++ '*' :: '/' :: B') := by
      unfold sqlLowerOf pyStrip
      rw [hmap, hA', hsplit, hB', hfin]
    rw [hstrip]
    exact blockCommentMatch_complete A' (m.map lowerChar) B' hM
  by_cases he : (a ++ '/' :: '*' :: (m ++ '*' :: '/' :: b)).isEmpty
  · simp [is_safe_query, he]
  · by_cases hp : "select".toList.isPrefixOf
        (sqlLowerOf (a ++ '/' :: '*' :: (m ++ '*' :: '/' :: b))) = true
    · by_cases hk : dangerous_keywords.any
          (fun k => containsSub k (sqlLowerOf (a ++ '/' :: '*' :: (m ++ '*' :: '/' :: b))))
          = true
      · simp [is_safe_query, he, hp, hk]
      · simp [is_safe_query, he, hp, hk, hbc]
    · have hp' : ¬("select".toList
          <+: sqlLowerOf (a ++ '/' :: '*' :: (m ++ '*' :: '/' :: b))) := by simpa using hp
      have hp'' : ¬(['s', 'e', 'l', 'e', 'c', 't']
          <+: sqlLowerOf (a ++ '/' :: '*' :: (m ++ '*' :: '/' :: b))) := hp'
      simp [is_safe_query, he, hp'']

/-- Witness for the amended C3 at `"select 1 /*x*/"`. -/
theorem claim_C3_witness :
    ("select 1 /*x*/".toList
        = "select 1 ".toList ++ '/' :: '*' :: ("x".toList ++ '*' :: '/' :: ([] : List Char)) ∧
      ∀ c ∈ "x".toList, c ≠ '\n') ∧
      is_safe_query "select 1 /*x*/".toList = false :=
  ⟨⟨by decide, by decide⟩,
    claim_C3 _ "select 1 ".toList "x".toList [] (by decide) (by decide)⟩

/-- `containsSub` decides substring containment. -/
theorem containsSub_iff (pat s : List Char) : containsSub pat s = true ↔ pat <:+: s := by
  induction s with
  | nil => simp [containsSub, List.isEmpty_iff]
  | cons c rest ih =>
    show (pat.isPrefixOf (c :: rest) || containsSub pat rest) = true ↔ _
    rw [Bool.or_eq_true, List.isPrefixOf_iff_prefix, ih, List.infix_cons_iff]

/-- When no case-insensitive `SQL:` label occurs in the text, the label
search fails. -/
theorem searchSqlLabel_eq_none (t : List Char)
    (h : containsSub "sql:".toList (t.map lowerChar) = false) :
    searchSqlLabel t = none := by
  induction t with
  | nil => rfl
  | cons c rest ih =>
    have hnot : ¬("sql:".toList <:+: ((c :: rest).map lowerChar)) := by
      intro hin
      rw [← containsSub_iff, h] at hin
      exact Bool.false_ne_true hin
    have hg : "sql:".toList.isPrefixOf ((c :: rest).map lowerChar) = false := by
      cases hb : "sql:".toList.isPrefixOf ((c :: rest).map lowerChar)
      · rfl
      · exact absurd (List.IsPrefix.isInfix (List.isPrefixOf_iff_prefix.mp hb)) hnot
    have hrest : containsSub "sql:".toList (rest.map lowerChar) = false := by
      cases hb : containsSub "sql:".toList (rest.map lowerChar)
      · rfl
      · exact absurd (List.infix_cons ((containsSub_iff _ _).mp hb)) hnot
    show (if "sql:".toList.isPrefixOf ((c :: rest).map lowerChar) = true then
        (match sqlGroup ((c :: rest).drop 4) with
          | some g => some g
          | none => searchSqlLabel rest)
      else searchSqlLabel rest) = none
    rw [hg]
    simp [ih hrest]

/-- When no case-insensitive `EXPLANATION:` label occurs in the text, the
label search fails. -/
theorem searchExpLabel_eq_none (t : List Char)
    (h : containsSub "explanation:".toList (t.map lowerChar) = false) :
    searchExpLabel t = none := by
  induction t with
  | nil => rfl
  | cons c rest ih =>
    have hnot : ¬("explanation:".toList <:+: ((c :: rest).map lowerChar)) := by
      intro hin
      rw [← containsSub_iff, h] at hin
      exact Bool.false_ne_true hin
    have hg : "explanation:".toList.isPrefixOf ((c :: rest).map lowerChar) = false := by
      cases hb : "explanation:".toList.isPrefixOf ((c :: rest).map lowerChar)
      · rfl
      · exact absurd (List.IsPrefix.isInfix (List.isPrefixOf_iff_prefix.mp hb)) hnot
    have hrest : containsSub "explanation:".toList (rest.map lowerChar) = false := by
      cases hb : containsSub "explanation:".toList (rest.map lowerChar)
      · rfl
      · exact absurd (List.infix_cons ((containsSub_iff _ _).mp hb)) hnot
    show (if "explanation:".toList.isPrefixOf ((c :: rest).map lowerChar) = true then
        (match expGroup ((c :: rest).drop 12) with
          | some g => some g
          | none => searchExpLabel rest)
      else searchExpLabel rest) = none
    rw [hg]
    simp [ih hrest]

/-- When the text contains no backtick at all, the code-fence search
fails. -/
theorem searchFence_eq_none (t : List Char) (h : Char.ofNat 96 ∉ t) :
    searchFence t = none := by
  induction t with
  | nil => rfl
  | cons c rest ih =>
    have hg : "```sql".toList.isPrefixOf ((c :: rest).map lowerChar) = false := by
      cases hb : "```sql".toList.isPrefixOf ((c :: rest).map lowerChar)
      · rfl
      · exfalso
        obtain ⟨s, hs⟩ := List.isPrefixOf_iff_prefix.mp hb
        have h1 : "```sql".toList = Char.ofNat 96 :: "``sql".toList := by decide
        rw [h1, List.cons_append, List.map_cons] at hs
        have hc : Char.ofNat 96 = lowerChar c := (List.cons.injEq _ _ _ _ ▸ hs).1
        have : c = Char.ofNat 96 :=
          (lowerChar_eq_iff (by decide) (by decide) c).mp hc.symm
        exact h (this ▸ List.mem_cons_self c rest)
    have hrest : Char.ofNat 96 ∉ rest := fun hm => h (List.mem_cons_of_mem _ hm)
    show (if "```sql".toList.isPrefixOf ((c :: rest).map lowerChar) = true then
        (match fenceAfterLabel ((c :: rest).drop 6) with
          | some g => some g
          | none => searchFence rest)
      else searchFence rest) = none
    rw [hg]
    simp [ih hrest]

/-- `str.replace` is the identity when the head character of the pattern
does not occur in the string. -/
theorem replaceFuel_id (pat repl : List Char) (p0 : Char) (hp : pat.head? = some p0) :
    ∀ (fuel : Nat) (l : List Char), p0 ∉ l → replaceFuel pat repl fuel l = l := by
  intro fuel
  induction fuel with
  | zero => intro l _; cases l <;> rfl
  | succ f ih =>
    intro l hl
    cases l with
    | nil => rfl
    | cons c rest =>
      have hg : pat.isPrefixOf (c :: rest) = false := by
        cases hb : pat.isPrefixOf (c :: rest)
        · rfl
        · exfalso
          obtain ⟨s, hs⟩ := List.isPrefixOf_iff_prefix.mp hb
          cases pat with
          | nil => simp at hp
          | cons q qt =>
            have hq : q = p0 := by simpa using hp
            rw [List.cons_append] at hs
            have hc : q = c := (List.cons.injEq _ _ _ _ ▸ hs).1
            exact hl (hq ▸ hc ▸ List.mem_cons_self c rest)
      have hrest := ih rest fun hm => hl (List.mem_cons_of_mem _ hm)
      simp [replaceFuel, hg, hrest]

/-- `pyReplace` is the identity when the head character of the pattern
does not occur in the string. -/
theorem pyReplace_id (s pat repl : List Char) (p0 : Char) (hp : pat.head? = some p0)
    (h : p0 ∉ s) : pyReplace s pat repl = s :=
  replaceFuel_id pat repl p0 hp s.length s h

/-- The head of a `dropWhile p` result does not satisfy `p`. -/
theorem dropWhile_head_false (p : Char → Bool) (l : List Char) (z : Char) (zt : List Char)
    (h : List.dropWhile p l = z :: zt) : p z = false := by
  induction l with
  | nil => simp [List.dropWhile] at h
  | cons c r ih =>
    by_cases hc : p c
    · rw [List.dropWhile_cons_of_pos hc] at h; exact ih h
    · rw [List.dropWhile_cons_of_neg hc] at h
      injection h with h1 _
      subst h1
      cases hb : p c
      · rfl
      · exact absurd hb hc

/-- Left-stripping an already stripped list changes nothing. -/
theorem dropWhile_rdropWhile (p : Char → Bool) (s : List Char) :
    List.dropWhile p ((List.dropWhile p s).rdropWhile p)
      = (List.dropWhile p s).rdropWhile p := by
  cases hz : (List.dropWhile p s).rdropWhile p with
  | nil => simp
  | cons z zt =>
    have hpre : (List.dropWhile p s).rdropWhile p <+: List.dropWhile p s :=
      List.rdropWhile_prefix _ _
    rw [hz] at hpre
    obtain ⟨t, ht⟩ := hpre
    have hds : List.dropWhile p s = z :: (zt ++ t) := by rw [← ht]; simp
    have hzp : p z = false := dropWhile_head_false p s z (zt ++ t) hds
    exact List.dropWhile_cons_of_neg (by simp [hzp])

/-- Python's `strip` is idempotent. -/
theorem pyStrip_idem (s : List Char) : pyStrip (pyStrip s) = pyStrip s := by
  unfold pyStrip
  rw [dropWhile_rdropWhile]
  exact List.rdropWhile_idempotent _ _

/-- The stripped text is an infix of the original text. -/
theorem pyStrip_within (s : List Char) : pyStrip s <:+: s := by
  have h1 : (List.dropWhile isPySpace s).rdropWhile isPySpace
      <+: List.dropWhile isPySpace s := List.rdropWhile_prefix _ _
  have h2 : List.dropWhile isPySpace s <:+ s := List.dropWhile_suffix isPySpace
  exact h1.isInfix.trans h2.isInfix

/-- Characters of the stripped text come from the original text. -/
theorem mem_of_mem_pyStrip {c : Char} {s : List Char} (h : c ∈ pyStrip s) : c ∈ s :=
  List.IsInfix.mem h (pyStrip_within s)

/-- A substring absent from the lower-cased text is also absent from the
lower-cased stripped text. -/
theorem containsSub_pyStrip_lower (pat t : List Char)
    (h : containsSub pat (t.map lowerChar) = false) :
    containsSub pat ((pyStrip t).map lowerChar) = false := by
  cases hb : containsSub pat ((pyStrip t).map lowerChar)
  · rfl
  · exfalso
    have hin : pat <:+: (pyStrip t).map lowerChar := (containsSub_iff _ _).mp hb
    have hmap : (pyStrip t).map lowerChar <:+: t.map lowerChar :=
      List.IsInfix.map lowerChar (pyStrip_within t)
    have := (containsSub_iff pat (t.map lowerChar)).mpr (hin.trans hmap)
    rw [h] at this
    exact Bool.false_ne_true this

/-- Claim C7: the parser round trip on the well-formed model response
`"SQL:\nSELECT * FROM sites\n\nEXPLANATION:\nLists sites"` returns exactly
`sql = "SELECT * FROM sites"` and `explanation = "Lists sites"`. -/
theorem claim_C7 :
    parse_gemini_response "SQL:\nSELECT * FROM sites\n\nEXPLANATION:\nLists sites".toList
      = ("SELECT * FROM sites".toList, "Lists sites".toList) := by
  rfl

/-- Claim C8: on malformed input (no `SQL:` label, no code fence, no
`EXPLANATION:` label, no `select` substring — the empty string included),
the parser still returns a pair and degrades to the whole-text fallback:
the stripped text together with the placeholder explanation.  The model
is a total function, so no exception is possible on any input. -/
theorem claim_C8 (t : List Char)
    (h1 : containsSub "sql:".toList (t.map lowerChar) = false)
    (h2 : Char.ofNat 96 ∉ t)
    (h3 : containsSub "explanation:".toList (t.map lowerChar) = false)
    (h4 : containsSub "select".toList (t.map lowerChar) = false) :
    parse_gemini_response t = (pyStrip t, defaultExplanation) := by
  have hs := searchSqlLabel_eq_none t h1
  have hf := searchFence_eq_none t h2
  have he := searchExpLabel_eq_none t h3
  have hb : Char.ofNat 96 ∉ pyStrip t := fun hm => h2 (mem_of_mem_pyStrip hm)
  have hr1 : pyReplace (pyStrip t) "```sql".toList [] = pyStrip t :=
    pyReplace_id _ _ _ (Char.ofNat 96) (by decide) hb
  have hr2 : pyReplace (pyStrip t) "```".toList [] = pyStrip t :=
    pyReplace_id _ _ _ (Char.ofNat 96) (by decide) hb
  have hsel := containsSub_pyStrip_lower "select".toList t h4
  simp only [parse_gemini_response, hs, hf, he]
  rw [hr1, hr2, pyStrip_idem, hsel]
  simp

/-- Witness for C8 at the structureless input `"no structure here"`. -/
theorem claim_C8_witness :
    (containsSub "sql:".toList ("no structure here".toList.map lowerChar) = false ∧
      Char.ofNat 96 ∉ "no structure here".toList ∧
      containsSub "explanation:".toList ("no structure here".toList.map lowerChar) = false ∧
      containsSub "select".toList ("no structure here".toList.map lowerChar) = false) ∧
      parse_gemini_response "no structure here".toList
        = (pyStrip "no structure here".toList, defaultExplanation) :=
  ⟨⟨by decide, by decide, by decide, by decide⟩,
    claim_C8 _ (by decide) (by decide) (by decide) (by decide)⟩

/-- Counterexample for C4: starting from a freshly connected manager
(handle 1), a second successful `connect` (handle 2) leaves exactly one
live handle — the new one — but the previously held handle is *not*
released: `connect` never invokes a close, so the ghost trace of driver
closes stays empty and handle 1 is leaked. -/
theorem claim_C4_counterexample :
    (DatabaseManager.connect initState ⟨"postgresql".toList, 0⟩ (DriverOutcome.ok 1)).1.connection
        = some 1 ∧
      (DatabaseManager.connect
          (DatabaseManager.connect initState ⟨"postgresql".toList, 0⟩ (DriverOutcome.ok 1)).1
          ⟨"mysql".toList, 0⟩ (DriverOutcome.ok 2)).2 = true ∧
      (DatabaseManager.connect
          (DatabaseManager.connect initState ⟨"postgresql".toList, 0⟩ (DriverOutcome.ok 1)).1
          ⟨"mysql".toList, 0⟩ (DriverOutcome.ok 2)).1.connection = some 2 ∧
      (DatabaseManager.connect
          (DatabaseManager.connect initState ⟨"postgresql".toList, 0⟩ (DriverOutcome.ok 1)).1
          ⟨"mysql".toList, 0⟩ (DriverOutcome.ok 2)).1.closed = [] :=
  ⟨rfl, rfl, rfl, rfl⟩

/-- Claim C4 as amended: when `connect` is called on a manager already
holding a live handle and the second connect succeeds, exactly one live
handle remains afterward — the one created by the second connect — but
the previously held handle is *not* released: `connect` invokes no close
(the ghost close trace is unchanged), so the old connection is leaked. -/
theorem claim_C4 (st : DBState) (cfg : PyConfig) (drv : DriverOutcome) (h0 : Nat)
    (hold : st.connection = some h0)
    (hok : (DatabaseManager.connect st cfg drv).2 = true) :
    (∃ h, drv = DriverOutcome.ok h ∧
        (DatabaseManager.connect st cfg drv).1.connection = some h) ∧
      (DatabaseManager.connect st cfg drv).1.closed = st.closed := by
  unfold DatabaseManager.connect at *
  by_cases h1 : cfg.ctype = "postgresql".toList <;>
    by_cases h2 : cfg.ctype = "mysql".toList <;>
      by_cases h3 : cfg.ctype = "sqlite".toList <;>
        cases drv <;> simp_all

/-- Witness for the amended C4: reconnecting from handle 1 to handle 2. -/
theorem claim_C4_witness :
    ((DatabaseManager.connect initState ⟨"postgresql".toList, 0⟩ (DriverOutcome.ok 1)).1.connection
        = some 1 ∧
      (DatabaseManager.connect
          (DatabaseManager.connect initState ⟨"postgresql".toList, 0⟩ (DriverOutcome.ok 1)).1
          ⟨"mysql".toList, 0⟩ (DriverOutcome.ok 2)).2 = true) ∧
      (∃ h, DriverOutcome.ok 2 = DriverOutcome.ok h ∧
          (DatabaseManager.connect
              (DatabaseManager.connect initState ⟨"postgresql".toList, 0⟩ (DriverOutcome.ok 1)).1
              ⟨"mysql".toList, 0⟩ (DriverOutcome.ok 2)).1.connection = some h) ∧
        (DatabaseManager.connect
            (DatabaseManager.connect initState ⟨"postgresql".toList, 0⟩ (DriverOutcome.ok 1)).1
            ⟨"mysql".toList, 0⟩ (DriverOutcome.ok 2)).1.closed
          = (DatabaseManager.connect initState ⟨"postgresql".toList, 0⟩
              (DriverOutcome.ok 1)).1.closed :=
  ⟨⟨rfl, rfl⟩, claim_C4 _ ⟨"mysql".toList, 0⟩ (DriverOutcome.ok 2) 1 rfl rfl⟩

/-- Counterexample for C5: on the disconnected initial state,
`get_schema` does not fail with the `Database not connected` error that
`execute_query` raises — it returns the empty schema `{"tables": []}`
as a normal result. -/
theorem claim_C5_counterexample :
    DatabaseManager.get_schema initState ⟨Except.ok [], Except.ok [], Except.ok []⟩
        = Except.ok ⟨[]⟩ ∧
      DatabaseManager.execute_query initState (Except.ok [])
        = Except.error "Database not connected".toList :=
  ⟨rfl, rfl⟩

/-- Claim C5 as amended: for every manager in the disconnected state and
every driver outcome, `get_schema` returns the empty schema
`{"tables": []}` as a normal result — it does not fail at all, unlike
`execute_query`, which raises `Database not connected`. -/
theorem claim_C5 (st : DBState) (o : IntroOutcome) (h : st.connection = none) :
    DatabaseManager.get_schema st o = Except.ok ⟨[]⟩ := by
  unfold DatabaseManager.get_schema
  simp [h]

/-- Witness for the amended C5 at the initial state. -/
theorem claim_C5_witness :
    initState.connection = none ∧
      DatabaseManager.get_schema initState ⟨Except.ok [], Except.ok [], Except.ok []⟩
        = Except.ok ⟨[]⟩ :=
  ⟨rfl, claim_C5 initState ⟨Except.ok [], Except.ok [], Except.ok []⟩ rfl⟩

/-- Counterexample for C6: with a live PostgreSQL connection, a connector
failure with message `boom` is *not* surfaced unchanged — `execute_query`
re-raises it with the prefix `Query execution failed: `. -/
theorem claim_C6_counterexample :
    DatabaseManager.execute_query
        (DatabaseManager.connect initState ⟨"postgresql".toList, 0⟩ (DriverOutcome.ok 1)).1
        (Except.error "boom".toList)
      = Except.error "Query execution failed: boom".toList ∧
      "Query execution failed: boom".toList ≠ "boom".toList :=
  ⟨rfl, by decide⟩

/-- Claim C6 as amended: when the manager is connected with a supported
engine type and the connector's execution fails with message `m`,
`execute_query` surfaces a failure — never a normal result — whose
message is the connector's message prefixed with `Query execution
failed: ` (the backend-specific detail is preserved verbatim as the
suffix, but the error is wrapped, not passed unchanged). -/
theorem claim_C6 (st : DBState) (m : List Char)
    (hc : st.connection.isNone = false)
    (ht : st.db_type = some "postgresql".toList ∨ st.db_type = some "mysql".toList
        ∨ st.db_type = some "sqlite".toList) :
    DatabaseManager.execute_query st (Except.error m)
      = Except.error ("Query execution failed: ".toList ++ m) := by
  unfold DatabaseManager.execute_query
  rcases ht with h | h | h <;> simp [hc, h]

/-- Witness for the amended C6: connected PostgreSQL manager, connector
failure `boom`. -/
theorem claim_C6_witness :
    ((DatabaseManager.connect initState ⟨"postgresql".toList, 0⟩
          (DriverOutcome.ok 1)).1.connection.isNone = false ∧
      (DatabaseManager.connect initState ⟨"postgresql".toList, 0⟩
          (DriverOutcome.ok 1)).1.db_type = some "postgresql".toList) ∧
      DatabaseManager.execute_query
          (DatabaseManager.connect initState ⟨"postgresql".toList, 0⟩ (DriverOutcome.ok 1)).1
          (Except.error "boom".toList)
        = Except.error ("Query execution failed: ".toList ++ "boom".toList) :=
  ⟨⟨rfl, rfl⟩, claim_C6 _ "boom".toList rfl (Or.inl rfl)⟩

/-- Claim C9: `connect` overwrites the stored `config` and `db_type`
before attempting the connection and does not restore them on failure:
after any failed `connect`, the manager is disconnected
(`connection = None`) while `config` and `db_type` hold the values of the
failed attempt. -/
theorem claim_C9 (st : DBState) (cfg : PyConfig) (drv : DriverOutcome)
    (hfail : (DatabaseManager.connect st cfg drv).2 = false) :
    (DatabaseManager.connect st cfg drv).1.connection = none ∧
      (DatabaseManager.connect st cfg drv).1.config = some cfg ∧
      (DatabaseManager.connect st cfg drv).1.db_type = some cfg.ctype := by
  unfold DatabaseManager.connect at *
  by_cases h1 : cfg.ctype = "postgresql".toList <;>
    by_cases h2 : cfg.ctype = "mysql".toList <;>
      by_cases h3 : cfg.ctype = "sqlite".toList <;>
        cases drv <;> simp_all

/-- Witness for C9: an `oracle` configuration always fails
(`NotImplementedError`), leaving `config`/`db_type` set to the failed
attempt while `connection` is cleared. -/
theorem claim_C9_witness :
    (DatabaseManager.connect initState ⟨"oracle".toList, 0⟩ (DriverOutcome.ok 7)).2 = false ∧
      (DatabaseManager.connect initState ⟨"oracle".toList, 0⟩
          (DriverOutcome.ok 7)).1.connection = none ∧
      (DatabaseManager.connect initState ⟨"oracle".toList, 0⟩
          (DriverOutcome.ok 7)).1.config = some ⟨"oracle".toList, 0⟩ ∧
      (DatabaseManager.connect initState ⟨"oracle".toList, 0⟩
          (DriverOutcome.ok 7)).1.db_type = some "oracle".toList :=
  ⟨rfl, claim_C9 initState ⟨"oracle".toList, 0⟩ (DriverOutcome.ok 7) rfl⟩

/-- Claim C10: `suggest_visualization` applied to a missing (`None`) or
empty row set returns no chart hint, rather than a hint or an error. -/
theorem claim_C10 :
    suggest_visualization none = none ∧ suggest_visualization (some []) = none :=
  ⟨rfl, rfl⟩
